import Mathlib

/-!
Verification of the ecs_boilerplate CDK repository.

The repository declares AWS resources (VPC/subnets, RDS database, ECS
service, CodePipeline) across several near-duplicate stack variants.  The
definitions below are a shallow embedding of those declarations: each
constructor's resource properties become Lean records, each arithmetic
formula becomes a Lean function, and the construction of resource lists
becomes list computation.  Theorems then settle the specified structural
properties of the declared resource graph.
-/

/-! ## Network foundation: subnet CIDR computation

Every VPC variant computes subnet CIDR blocks by the same formula:
`cidrBlock = ` "10.0.16*i+offset.0/20" with offset 0 for public
subnets and 48 for private subnets (part_000 `createSubnets`,
part_001 `createSubnet`, part_000 second variant and part_004 inline loops).
-/

/-- Third octet of the subnet CIDR for zone index `i` and type offset
`offset`, as computed by the expression `16 * i + offset` in the source. -/
def subnetCidrOctet (i offset : Nat) : Nat := 16 * i + offset

/-- The CIDR string the source builds by template interpolation. -/
def subnetCidrBlock (i offset : Nat) : String :=
  "10.0." ++ toString (subnetCidrOctet i offset) ++ ".0/20"

/-- Offset used for public subnets in every variant. -/
def publicOffset : Nat := 0

/-- Offset used for private subnets in every variant. -/
def privateOffset : Nat := 48

/-- A declared `CfnSubnet` resource (the fields the claims mention). -/
structure CfnSubnet where
  id : String
  cidrBlock : String
  availabilityZone : String
  mapPublicIpOnLaunch : Bool
  tags : List (String × String)
  deriving Repr, DecidableEq

/-- `VPCStack.createSubnets` (part_000, first variant): maps over the
availability zones with their index, producing one `CfnSubnet` per zone. -/
def createSubnets (proj : String) (type : String) (offset : Nat)
    (availabilityZones : List String) : List CfnSubnet :=
  availabilityZones.enum.map fun p =>
    { id := type ++ "-Subnet-" ++ toString (p.1 + 1)
      cidrBlock := subnetCidrBlock p.1 offset
      availabilityZone := p.2
      mapPublicIpOnLaunch := type == "Public"
      tags := [("Name", proj ++ "_" ++ type ++ "-Subnet-" ++ toString (p.1 + 1)),
        ("aws-cdk:subnet-type", type)] }

/-- The `for`-loop form used by part_000 (second variant), part_001 and
part_004: iterate `i` from 0 to `availabilityZones.length`, pushing one
subnet per index.  (part_001 sets `mapPublicIpOnLaunch: true`
unconditionally; the flag is passed here to cover both loop bodies.) -/
def createSubnetLoop (proj : String) (offset : Nat) (mapPublicIp : Bool)
    (type : String) (availabilityZones : List String) : List CfnSubnet :=
  (List.range availabilityZones.length).map fun i =>
    { id := type ++ "-Subnet-" ++ toString (i + 1)
      cidrBlock := subnetCidrBlock i offset
      availabilityZone := availabilityZones.getD i ""
      mapPublicIpOnLaunch := mapPublicIp
      tags := [("Name", proj ++ "_" ++ type ++ "-Subnet-" ++ toString (i + 1)),
        ("aws-cdk:subnet-type", type)] }

/-! ## Address-range semantics of a `/20` block inside `10.0.0.0/16`

An address inside the /16 is identified by its last 16 bits
(third octet * 256 + fourth octet).  The block `10.0.t.0/20` covers the
4096 addresses from `t * 256` to `t * 256 + 4095`. -/

/-- The `/20` block with third octet `t` covers address `addr`
(addresses counted within the enclosing `10.0.0.0/16`). -/
def cidr20Covers (t addr : Nat) : Prop :=
  t * 256 ≤ addr ∧ addr < t * 256 + 4096

/-- Two `/20` blocks overlap when some address lies in both. -/
def cidr20Overlap (a b : Nat) : Prop :=
  ∃ addr, cidr20Covers a addr ∧ cidr20Covers b addr

/-- Overlap of two `/20` blocks is interval intersection:
it holds exactly when neither block ends before the other begins. -/
theorem cidr20Overlap_iff (a b : Nat) :
    cidr20Overlap a b ↔ (a < b + 16 ∧ b < a + 16) := by
  unfold cidr20Overlap cidr20Covers
  constructor
  · rintro ⟨addr, ⟨ha1, ha2⟩, hb1, hb2⟩
    omega
  · rintro ⟨h1, h2⟩
    refine ⟨256 * max a b, ?_⟩
    rcases Nat.le_total a b with h | h <;>
      simp only [Nat.max_eq_right h, Nat.max_eq_left h] <;> omega

/-- The third octets of all subnet blocks a variant declares for `n`
availability zones: public blocks first, then private blocks. -/
def vpcSubnetOctets (n : Nat) : List Nat :=
  (List.range n).map (fun i => subnetCidrOctet i publicOffset) ++
    (List.range n).map (fun i => subnetCidrOctet i privateOffset)

/-- Boolean interval-disjointness of two `/20` third octets. -/
def cidr20DisjointB (a b : Nat) : Bool := a + 16 ≤ b || b + 16 ≤ a

theorem cidr20DisjointB_iff (a b : Nat) :
    cidr20DisjointB a b = true ↔ ¬ cidr20Overlap a b := by
  rw [cidr20Overlap_iff]
  simp [cidr20DisjointB]
  omega

/-- C3: for every zone count N ≤ 3 the public blocks `10.0.(16*i).0/20` and
private blocks `10.0.(16*i+48).0/20` are pairwise non-overlapping, and for
every N > 3 this fails: the public block at index 3 occupies the same /20
as the private block at index 0, so the combined list is no longer
pairwise disjoint. -/
theorem subnet_cidr_disjoint_boundary :
    (∀ n, n ≤ 3 →
      (vpcSubnetOctets n).Pairwise (fun a b => ¬ cidr20Overlap a b)) ∧
    (∀ n, 3 < n →
      subnetCidrOctet 3 publicOffset = subnetCidrOctet 0 privateOffset ∧
      ¬ (vpcSubnetOctets n).Pairwise (fun a b => ¬ cidr20Overlap a b)) := by
  constructor
  · intro n hn
    have step : ∀ l : List Nat,
        l.Pairwise (fun a b => cidr20DisjointB a b = true) →
        l.Pairwise (fun a b => ¬ cidr20Overlap a b) := fun l =>
      List.Pairwise.imp (fun h => (cidr20DisjointB_iff _ _).mp h)
    interval_cases n <;> exact step _ (by decide)
  · intro n hn
    refine ⟨rfl, fun hpw => ?_⟩
    rw [vpcSubnetOctets, List.pairwise_append] at hpw
    have h48pub : subnetCidrOctet 3 publicOffset ∈
        (List.range n).map (fun i => subnetCidrOctet i publicOffset) :=
      List.mem_map.mpr ⟨3, List.mem_range.mpr hn, rfl⟩
    have h48priv : subnetCidrOctet 0 privateOffset ∈
        (List.range n).map (fun i => subnetCidrOctet i privateOffset) :=
      List.mem_map.mpr ⟨0, List.mem_range.mpr (by omega), rfl⟩
    have hno := hpw.2.2 _ h48pub _ h48priv
    exact hno ((cidr20Overlap_iff _ _).mpr (by simp [subnetCidrOctet, publicOffset, privateOffset]))

/-- Closed witness for `subnet_cidr_disjoint_boundary`: non-overlap holds at
N = 3 and fails at N = 4. -/
theorem subnet_cidr_disjoint_boundary_witness :
    (vpcSubnetOctets 3).Pairwise (fun a b => ¬ cidr20Overlap a b) ∧
    ¬ (vpcSubnetOctets 4).Pairwise (fun a b => ¬ cidr20Overlap a b) :=
  ⟨subnet_cidr_disjoint_boundary.1 3 (by decide),
   (subnet_cidr_disjoint_boundary.2 4 (by decide)).2⟩

/-- C4: with 3 availability zones, every variant's subnet constructor
(the mapped `createSubnets` of part_000 and the loop form of part_000's
second variant, part_001 and part_004) declares public CIDRs exactly
10.0.0.0/20, 10.0.16.0/20, 10.0.32.0/20 and private CIDRs exactly
10.0.48.0/20, 10.0.64.0/20, 10.0.80.0/20, and in general the CIDR for
type offset o and zone index i is "10.0." ++ toString (16*i+o) ++ ".0/20". -/
theorem subnet_cidr_strings (proj : String) (azs : List String)
    (h : azs.length = 3) (mapIp : Bool) :
    (createSubnets proj "Public" publicOffset azs).map CfnSubnet.cidrBlock =
      ["10.0.0.0/20", "10.0.16.0/20", "10.0.32.0/20"] ∧
    (createSubnets proj "Private" privateOffset azs).map CfnSubnet.cidrBlock =
      ["10.0.48.0/20", "10.0.64.0/20", "10.0.80.0/20"] ∧
    (createSubnetLoop proj publicOffset mapIp "Public" azs).map CfnSubnet.cidrBlock =
      ["10.0.0.0/20", "10.0.16.0/20", "10.0.32.0/20"] ∧
    (createSubnetLoop proj privateOffset mapIp "Private" azs).map CfnSubnet.cidrBlock =
      ["10.0.48.0/20", "10.0.64.0/20", "10.0.80.0/20"] ∧
    (∀ i o, subnetCidrBlock i o = "10.0." ++ toString (16 * i + o) ++ ".0/20") := by
  rcases azs with _ | ⟨a, _ | ⟨b, _ | ⟨c, _ | ⟨d, t⟩⟩⟩⟩ <;> simp_all
  refine ⟨?_, ?_, ?_, ?_, fun i o => rfl⟩ <;>
    · simp only [createSubnets, createSubnetLoop, List.enum, List.enumFrom,
        List.map, List.length, List.range, List.range.loop]
      decide

/-- Closed witness for `subnet_cidr_strings` at three concrete zones. -/
theorem subnet_cidr_strings_witness :
    (createSubnets "demo" "Public" publicOffset ["az1", "az2", "az3"]).map
        CfnSubnet.cidrBlock =
      ["10.0.0.0/20", "10.0.16.0/20", "10.0.32.0/20"] ∧
    (createSubnets "demo" "Private" privateOffset ["az1", "az2", "az3"]).map
        CfnSubnet.cidrBlock =
      ["10.0.48.0/20", "10.0.64.0/20", "10.0.80.0/20"] :=
  ⟨(subnet_cidr_strings "demo" ["az1", "az2", "az3"] rfl true).1,
   (subnet_cidr_strings "demo" ["az1", "az2", "az3"] rfl true).2.1⟩

/-! ## Release pipeline: stage sequences

Each DeployStack variant constructs one `aws_codepipeline.Pipeline` with a
literal `stages` array.  The stage lists below transcribe those arrays:
deploy.ts holds three DeployStack variants, ecs_boilerplate-stack.ts holds
one more, part_006 one more, and the second ECSStack variant in ecs.ts
declares a pipeline inline. -/

/-- One pipeline stage: its name and the names of its actions. -/
structure PipelineStage where
  stageName : String
  actions : List String
  deriving Repr, DecidableEq

/-- deploy.ts, first DeployStack variant (lines 144-164). -/
def deployTsPipelineStages : List PipelineStage :=
  [ ⟨"Source", ["ECR_Source"]⟩,
    ⟨"Approval", ["ManualApproval"]⟩,
    ⟨"Build", ["Build"]⟩,
    ⟨"Deploy", ["ECS_Deploy"]⟩ ]

/-- deploy.ts, second DeployStack variant. -/
def deployTsSecondPipelineStages : List PipelineStage :=
  [ ⟨"Source", ["ECR_Source"]⟩,
    ⟨"Approval", ["ManualApproval"]⟩,
    ⟨"Build", ["Build"]⟩,
    ⟨"Deploy", ["ECS_Deploy"]⟩ ]

/-- deploy.ts, third DeployStack variant: only Source and Deploy. -/
def deployTsThirdPipelineStages : List PipelineStage :=
  [ ⟨"Source", ["ECR_Source"]⟩,
    ⟨"Deploy", ["ECS_Deploy"]⟩ ]

/-- ecs_boilerplate-stack.ts, DeployStack variant (lines 195-215). -/
def bpStackPipelineStages : List PipelineStage :=
  [ ⟨"Source", ["ECR_Source"]⟩,
    ⟨"Approval", ["ManualApproval"]⟩,
    ⟨"Build", ["Build"]⟩,
    ⟨"Deploy", ["ECS_Deploy"]⟩ ]

/-- part_006 `DeployStack.createPipeline` (lines 201-230). -/
def part006PipelineStages : List PipelineStage :=
  [ ⟨"Source", ["ECR_Source"]⟩,
    ⟨"Approval", ["ManualApproval"]⟩,
    ⟨"Build", ["Build"]⟩,
    ⟨"Deploy", ["ECS_Deploy"]⟩ ]

/-- ecs.ts, second ECSStack variant's inline pipeline: Source then Deploy. -/
def ecsTsInlinePipelineStages : List PipelineStage :=
  [ ⟨"Source", ["ECR_Source"]⟩,
    ⟨"Deploy", ["ECS_Deploy"]⟩ ]

/-- Every pipeline variant declared in the repository. -/
def pipelineVariants : List (List PipelineStage) :=
  [ deployTsPipelineStages, deployTsSecondPipelineStages,
    deployTsThirdPipelineStages, bpStackPipelineStages,
    part006PipelineStages, ecsTsInlinePipelineStages ]

/-- Stage names of a pipeline in declaration order. -/
def stageNames (p : List PipelineStage) : List String :=
  p.map PipelineStage.stageName

/-- C1 counterexample: in the deploy.ts pipeline both a Build and an
Approval stage are declared, yet Build does not precede Approval — the
declared order is Source, Approval, Build, Deploy. -/
theorem pipeline_stage_order_cex :
    "Build" ∈ stageNames deployTsPipelineStages ∧
    "Approval" ∈ stageNames deployTsPipelineStages ∧
    ¬ (stageNames deployTsPipelineStages).indexOf "Build" <
        (stageNames deployTsPipelineStages).indexOf "Approval" ∧
    stageNames deployTsPipelineStages =
      ["Source", "Approval", "Build", "Deploy"] := by decide

/-- C1 amended: every pipeline variant starts with Source and ends with
Deploy, and in every variant that declares both a Build stage and an
Approval stage, the Approval stage precedes the Build stage (the declared
order is Source, Approval, Build, Deploy). -/
theorem pipeline_stage_order :
    ∀ p ∈ pipelineVariants,
      (stageNames p).head? = some "Source" ∧
      (stageNames p).getLast? = some "Deploy" ∧
      ("Build" ∈ stageNames p → "Approval" ∈ stageNames p →
        (stageNames p).indexOf "Approval" < (stageNames p).indexOf "Build") := by
  decide

/-- Closed witness for `pipeline_stage_order` at the deploy.ts variant,
with the membership hypotheses discharged. -/
theorem pipeline_stage_order_witness :
    (stageNames deployTsPipelineStages).head? = some "Source" ∧
    (stageNames deployTsPipelineStages).getLast? = some "Deploy" ∧
    (stageNames deployTsPipelineStages).indexOf "Approval" <
      (stageNames deployTsPipelineStages).indexOf "Build" :=
  ⟨(pipeline_stage_order deployTsPipelineStages (by decide)).1,
   (pipeline_stage_order deployTsPipelineStages (by decide)).2.1,
   (pipeline_stage_order deployTsPipelineStages (by decide)).2.2
     (by decide) (by decide)⟩

/-! ## Data store: SSM parameters and the database instance

lib/database.ts and part_002 are the two DatabaseStack variants.  Both
create one `DatabaseInstance` and publish connection values as
`StringParameter`s; they differ in which parameters exist and in whether
a security group is declared. -/

/-- Where a parameter's `stringValue` comes from in the source. -/
inductive ParamValue where
  /-- `database.dbInstanceEndpointAddress` -/
  | endpointAddress
  /-- `database.dbInstanceEndpointPort` -/
  | endpointPort
  /-- `database.secret!.secretValueFromJson(key)!.unsafeUnwrap()` -/
  | secretJsonUnsafeUnwrap (key : String)
  deriving Repr, DecidableEq

/-- A declared `aws_ssm.StringParameter` (construct id, name, value
source, and data type — `ParameterDataType.TEXT` is the string "text"). -/
structure SSMStringParameter where
  id : String
  parameterName : String
  value : ParamValue
  dataType : String
  deriving Repr, DecidableEq

/-- The parameters created by the lib/database.ts constructor, in order:
host, user, pass — each through `createSSMParameter`, which always sets
`dataType: TEXT`.  No port parameter is created in this variant. -/
def databaseStackParameters (proj : String) : List SSMStringParameter :=
  [ ⟨"RDSHOST", "/" ++ proj ++ "/rds/host", .endpointAddress, "text"⟩,
    ⟨"RDSUSER", "/" ++ proj ++ "/rds/user",
      .secretJsonUnsafeUnwrap "username", "text"⟩,
    ⟨"RDSPASS", "/" ++ proj ++ "/rds/pass",
      .secretJsonUnsafeUnwrap "password", "text"⟩ ]

/-- The parameters created by the part_002 constructor, in order:
host, port, user, pass, each with `dataType: TEXT`. -/
def databaseStackAltParameters (proj : String) : List SSMStringParameter :=
  [ ⟨"RDSHOST", "/" ++ proj ++ "/rds/host", .endpointAddress, "text"⟩,
    ⟨"RDSPORT", "/" ++ proj ++ "/rds/port", .endpointPort, "text"⟩,
    ⟨"RDSUSER", "/" ++ proj ++ "/rds/user",
      .secretJsonUnsafeUnwrap "username", "text"⟩,
    ⟨"RDSPASS", "/" ++ proj ++ "/rds/pass",
      .secretJsonUnsafeUnwrap "password", "text"⟩ ]

/-- C2 counterexample: the lib/database.ts variant, given project "demo",
produces exactly the three keys host, user, pass — the key
/demo/rds/port is not among them, so not every variant produces the four
claimed keys. -/
theorem rds_parameter_keys_cex :
    (databaseStackParameters "demo").map SSMStringParameter.parameterName =
      ["/demo/rds/host", "/demo/rds/user", "/demo/rds/pass"] ∧
    "/demo/rds/port" ∉
      (databaseStackParameters "demo").map SSMStringParameter.parameterName := by
  decide

/-- C2 amended: for project "demo" the part_002 variant produces exactly
the four keys /demo/rds/host, /demo/rds/port, /demo/rds/user,
/demo/rds/pass, while the lib/database.ts variant produces exactly the
three keys /demo/rds/host, /demo/rds/user, /demo/rds/pass (no port). -/
theorem rds_parameter_keys :
    (databaseStackAltParameters "demo").map SSMStringParameter.parameterName =
      ["/demo/rds/host", "/demo/rds/port", "/demo/rds/user",
        "/demo/rds/pass"] ∧
    (databaseStackParameters "demo").map SSMStringParameter.parameterName =
      ["/demo/rds/host", "/demo/rds/user", "/demo/rds/pass"] := by
  decide

/-- A port specification in a security-group rule. -/
inductive PortSpec where
  /-- `Port.tcp(n)` -/
  | tcp (port : Nat)
  /-- `Port.allTraffic()` -/
  | allTraffic
  deriving Repr, DecidableEq

/-- One security-group ingress rule: the source peer CIDR and the port. -/
structure IngressRule where
  peer : String
  port : PortSpec
  deriving Repr, DecidableEq

/-- A declared `aws_ec2.SecurityGroup` with its ingress rules. -/
structure SecurityGroup where
  id : String
  allowAllOutbound : Bool
  ingressRules : List IngressRule
  deriving Repr, DecidableEq

/-- `Peer.anyIpv4()` is the CIDR 0.0.0.0/0. -/
def anyIpv4 : String := "0.0.0.0/0"

/-- Every VPC variant declares the VPC with
`IpAddresses.cidr("10.0.0.0/16")`, so `vpc.vpcCidrBlock` resolves to this
block. -/
def vpcCidrBlock : String := "10.0.0.0/16"

/-- `DatabaseStack.createRdsSecurityGroup` (lib/database.ts): one ingress
rule admitting TCP 3306 from the VPC CIDR. -/
def createRdsSecurityGroup : SecurityGroup :=
  { id := "RDSSecurityGroup"
    allowAllOutbound := true
    ingressRules := [⟨vpcCidrBlock, .tcp 3306⟩] }

/-- The `DatabaseInstance` properties the claims mention. -/
structure DatabaseInstanceProps where
  databaseName : String
  multiAz : Bool
  publiclyAccessible : Bool
  allocatedStorage : Nat
  /-- `none` when the `securityGroups` property is omitted in the source. -/
  securityGroups : Option (List SecurityGroup)
  deriving Repr, DecidableEq

/-- `DatabaseStack.createDatabase` (lib/database.ts). -/
def createDatabase : DatabaseInstanceProps :=
  { databaseName := "testdb"
    multiAz := false
    publiclyAccessible := false
    allocatedStorage := 20
    securityGroups := some [createRdsSecurityGroup] }

/-- `DatabaseStack.createDatabase` (part_002): same instance shape but no
`securityGroups` property at all. -/
def createDatabaseAlt (proj : String) : DatabaseInstanceProps :=
  { databaseName := proj
    multiAz := false
    publiclyAccessible := false
    allocatedStorage := 20
    securityGroups := none }

/-- C5 counterexample: the part_002 variant declares its database with no
security group, so it does not carry the VPC-CIDR/3306 ingress
restriction the claim asserts for every variant. -/
theorem rds_network_restriction_cex :
    (createDatabaseAlt "demo").securityGroups = none := by decide

/-- C5 amended: both variants declare a single (non-multi-AZ) instance
that is not publicly accessible; the lib/database.ts variant attaches a
security group whose only ingress rule admits TCP 3306 from the VPC CIDR
block, while the part_002 variant declares no security group at all. -/
theorem rds_network_restriction (proj : String) :
    createDatabase.publiclyAccessible = false ∧
    createDatabase.multiAz = false ∧
    createDatabase.securityGroups =
      some [⟨"RDSSecurityGroup", true, [⟨"10.0.0.0/16", .tcp 3306⟩]⟩] ∧
    (createDatabaseAlt proj).publiclyAccessible = false ∧
    (createDatabaseAlt proj).multiAz = false ∧
    (createDatabaseAlt proj).securityGroups = none :=
  ⟨rfl, rfl, rfl, rfl, rfl, rfl⟩

/-- Closed witness for `rds_network_restriction` at project "demo". -/
theorem rds_network_restriction_witness :
    createDatabase.publiclyAccessible = false ∧
    (createDatabaseAlt "demo").securityGroups = none :=
  ⟨(rds_network_restriction "demo").1,
   (rds_network_restriction "demo").2.2.2.2.2⟩

/-- C10: in both DatabaseStack variants the username and password
parameters are plain-text String parameters (dataType "text") whose
values come from `secretValueFromJson(...).unsafeUnwrap()` — the secret
is unwrapped at definition time, not stored by reference. -/
theorem rds_credentials_plaintext (proj : String) :
    (databaseStackParameters proj).map
        (fun p => (p.dataType, p.value)) =
      [("text", .endpointAddress),
        ("text", .secretJsonUnsafeUnwrap "username"),
        ("text", .secretJsonUnsafeUnwrap "password")] ∧
    (databaseStackAltParameters proj).map
        (fun p => (p.dataType, p.value)) =
      [("text", .endpointAddress), ("text", .endpointPort),
        ("text", .secretJsonUnsafeUnwrap "username"),
        ("text", .secretJsonUnsafeUnwrap "password")] :=
  ⟨rfl, rfl⟩

/-- Closed witness for `rds_credentials_plaintext` at project "demo". -/
theorem rds_credentials_plaintext_witness :
    (databaseStackParameters "demo").map
        (fun p => (p.dataType, p.value)) =
      [("text", .endpointAddress),
        ("text", .secretJsonUnsafeUnwrap "username"),
        ("text", .secretJsonUnsafeUnwrap "password")] :=
  (rds_credentials_plaintext "demo").1

/-! ## VPC service endpoints

Three VPCStack variants declare endpoints (part_000 holds two, part_001
one more; part_004 inlines the same declarations).  Each declares a
security group `VPCEndpointSG` with one ingress rule admitting all
traffic from any IPv4 address, one Gateway endpoint for S3 on the private
route table, and a list of Interface endpoints placed in the private
subnets.  Only the first part_000 variant includes the SSM endpoint. -/

/-- The security group every variant attaches to its interface endpoints:
`addIngressRule(Peer.anyIpv4(), Port.allTraffic())`. -/
def vpcEndpointSG : SecurityGroup :=
  { id := "VPCEndpointSG"
    allowAllOutbound := true
    ingressRules := [⟨anyIpv4, .allTraffic⟩] }

/-- A declared `CfnVPCEndpoint`. -/
structure VPCEndpoint where
  id : String
  serviceName : String
  vpcEndpointType : String
  subnetIds : List String
  routeTableIds : List String
  securityGroupIds : List String
  deriving Repr, DecidableEq

/-- The `EndpointConfig` entries of part_000's first variant: the service
names interpolate the region into `com.amazonaws.region.suffix`. -/
def part000EndpointConfigs (region : String) : List (String × String) :=
  [ ("ECREndpoint", "com.amazonaws." ++ region ++ ".ecr.dkr"),
    ("ECRApiEndpoint", "com.amazonaws." ++ region ++ ".ecr.api"),
    ("CloudWatchLogsEndpoint", "com.amazonaws." ++ region ++ ".logs"),
    ("SSMEndpoint", "com.amazonaws." ++ region ++ ".ssm") ]

/-- The endpoint configurations of part_000's second variant, part_001
and part_004: no SSM entry. -/
def altEndpointConfigs (region : String) : List (String × String) :=
  [ ("ECREndpoint", "com.amazonaws." ++ region ++ ".ecr.dkr"),
    ("ECRApiEndpoint", "com.amazonaws." ++ region ++ ".ecr.api"),
    ("CloudWatchLogsEndpoint", "com.amazonaws." ++ region ++ ".logs") ]

/-- The S3 Gateway endpoint shared by all variants. -/
def s3GatewayEndpoint (region : String)
    (privateRouteTableRef : String) : VPCEndpoint :=
  { id := "S3Endpoint"
    serviceName := "com.amazonaws." ++ region ++ ".s3"
    vpcEndpointType := "Gateway"
    subnetIds := []
    routeTableIds := [privateRouteTableRef]
    securityGroupIds := [] }

/-- `VPCStack.createVPCEndpoints` (part_000, first variant): the S3
gateway endpoint plus, for each configured service, an Interface endpoint
in the private subnets guarded by the endpoint security group. -/
def createVPCEndpoints (region : String) (privateSubnetIds : List String)
    (privateRouteTableRef : String) : List VPCEndpoint :=
  s3GatewayEndpoint region privateRouteTableRef ::
    (part000EndpointConfigs region).map fun c =>
      { id := c.1 ++ "Endpoint"
        serviceName := c.2
        vpcEndpointType := "Interface"
        subnetIds := privateSubnetIds
        routeTableIds := []
        securityGroupIds := [vpcEndpointSG.id] }

/-- The endpoint declarations of part_000's second variant, part_001 and
part_004: identical, except the SSM interface endpoint is absent. -/
def vpcEndpointsAlt (region : String) (privateSubnetIds : List String)
    (privateRouteTableRef : String) : List VPCEndpoint :=
  s3GatewayEndpoint region privateRouteTableRef ::
    (altEndpointConfigs region).map fun c =>
      { id := c.1
        serviceName := c.2
        vpcEndpointType := "Interface"
        subnetIds := privateSubnetIds
        routeTableIds := []
        securityGroupIds := [vpcEndpointSG.id] }

/-- The Interface-type endpoints of a declaration list. -/
def interfaceEndpoints (l : List VPCEndpoint) : List VPCEndpoint :=
  l.filter fun e => e.vpcEndpointType == "Interface"

/-- C6 counterexample: in the part_001/part_004 variant the interface
endpoints are only ecr.dkr, ecr.api and logs — the ssm endpoint is
missing — and the endpoint security group admits all traffic from
0.0.0.0/0, not only from the private address ranges. -/
theorem vpc_endpoints_cex :
    (interfaceEndpoints (vpcEndpointsAlt "ap-southeast-1" ["s1", "s2", "s3"]
        "rtb")).map VPCEndpoint.serviceName =
      ["com.amazonaws.ap-southeast-1.ecr.dkr",
        "com.amazonaws.ap-southeast-1.ecr.api",
        "com.amazonaws.ap-southeast-1.logs"] ∧
    "com.amazonaws.ap-southeast-1.ssm" ∉
      (vpcEndpointsAlt "ap-southeast-1" ["s1", "s2", "s3"] "rtb").map
        VPCEndpoint.serviceName ∧
    vpcEndpointSG.ingressRules = [⟨"0.0.0.0/0", .allTraffic⟩] := by decide

/-- C6 amended: the first part_000 variant declares interface endpoints
for exactly ecr.dkr, ecr.api, logs and ssm, while the other variants
declare only ecr.dkr, ecr.api and logs; in every variant each interface
endpoint is placed exactly in the private subnets and attached to the
endpoint security group, whose single ingress rule admits all traffic
from any IPv4 address (0.0.0.0/0) rather than only the private ranges. -/
theorem vpc_endpoints (region : String) (privateSubnetIds : List String)
    (rtb : String) :
    (interfaceEndpoints
        (createVPCEndpoints region privateSubnetIds rtb)).map
        VPCEndpoint.serviceName =
      ["com.amazonaws." ++ region ++ ".ecr.dkr",
        "com.amazonaws." ++ region ++ ".ecr.api",
        "com.amazonaws." ++ region ++ ".logs",
        "com.amazonaws." ++ region ++ ".ssm"] ∧
    (interfaceEndpoints (vpcEndpointsAlt region privateSubnetIds rtb)).map
        VPCEndpoint.serviceName =
      ["com.amazonaws." ++ region ++ ".ecr.dkr",
        "com.amazonaws." ++ region ++ ".ecr.api",
        "com.amazonaws." ++ region ++ ".logs"] ∧
    (∀ e ∈ interfaceEndpoints (createVPCEndpoints region privateSubnetIds rtb),
      e.subnetIds = privateSubnetIds ∧
      e.securityGroupIds = [vpcEndpointSG.id]) ∧
    (∀ e ∈ interfaceEndpoints (vpcEndpointsAlt region privateSubnetIds rtb),
      e.subnetIds = privateSubnetIds ∧
      e.securityGroupIds = [vpcEndpointSG.id]) ∧
    vpcEndpointSG.ingressRules = [⟨anyIpv4, .allTraffic⟩] := by
  refine ⟨rfl, rfl, ?_, ?_, rfl⟩ <;>
    · intro e he
      simp only [interfaceEndpoints, createVPCEndpoints, vpcEndpointsAlt,
        part000EndpointConfigs, altEndpointConfigs, s3GatewayEndpoint,
        List.map, List.filter] at he
      fin_cases he <;> exact ⟨rfl, rfl⟩

/-- Closed witness for `vpc_endpoints` at a concrete region and subnets. -/
theorem vpc_endpoints_witness :
    (interfaceEndpoints
        (createVPCEndpoints "ap-southeast-1" ["s1", "s2", "s3"] "rtb")).map
        VPCEndpoint.serviceName =
      ["com.amazonaws.ap-southeast-1.ecr.dkr",
        "com.amazonaws.ap-southeast-1.ecr.api",
        "com.amazonaws.ap-southeast-1.logs",
        "com.amazonaws.ap-southeast-1.ssm"] :=
  (vpc_endpoints "ap-southeast-1" ["s1", "s2", "s3"] "rtb").1

/-! ## Environment-variable handling

`EcsBoilerplateStack.setProjectInfo` (lib/ecs_boilerplate-stack.ts and
part_003's first variant) reads the project name, account and region with
JavaScript `||` fallbacks.  part_003's second variant and part_005 give
only the project name a fallback and read the account and region bare,
with no check, passing the possibly-absent values straight into the stack
environment.  part_004 reads `process.env.PROJECT_NAME` with no fallback
and interpolates the value into resource names; in JavaScript
interpolating `undefined` yields the string "undefined". -/

/-- The process environment, as a finite name-value map. -/
def EnvVars := List (String × String)

/-- `process.env.name`: `none` models an unset variable. -/
def getEnv (env : EnvVars) (name : String) : Option String :=
  env.lookup name

/-- JavaScript `process.env.name || default`: an unset variable and the
empty string are both falsy and yield the default. -/
def envOrDefault (env : EnvVars) (name default : String) : String :=
  match getEnv env name with
  | none => default
  | some s => if s = "" then default else s

/-- JavaScript template interpolation of a possibly-undefined value. -/
def jsInterp (v : Option String) : String := v.getD "undefined"

/-- The values `setProjectInfo` stores. -/
structure ProjectInfo where
  proj : String
  account : String
  region : String
  deriving Repr, DecidableEq

/-- `EcsBoilerplateStack.setProjectInfo` (lib/ecs_boilerplate-stack.ts). -/
def setProjectInfo (env : EnvVars) : ProjectInfo :=
  { proj := envOrDefault env "PROJECT_NAME" "ecs-boilerplate"
    account := envOrDefault env "CDK_DEFAULT_ACCOUNT" "123456789012"
    region := envOrDefault env "CDK_DEFAULT_REGION" "ap-southeast-1" }

/-- The reads of part_003's second variant and part_005: only the project
name carries a `||` fallback; `const account = process.env.CDK_DEFAULT_ACCOUNT`
and `const region = process.env.CDK_DEFAULT_REGION` are bare and
unchecked, so an absent value is carried through as-is. -/
structure ProjectEnvReads where
  proj : String
  account : Option String
  region : Option String
  deriving Repr, DecidableEq

/-- The top of part_005's constructor (identical in part_003's second
variant): project name with fallback, account and region bare. -/
def part005ProjectInfo (env : EnvVars) : ProjectEnvReads :=
  { proj := envOrDefault env "PROJECT_NAME" "ecs-boilerplate"
    account := getEnv env "CDK_DEFAULT_ACCOUNT"
    region := getEnv env "CDK_DEFAULT_REGION" }

/-- part_004 line 8: `const proj = process.env.PROJECT_NAME;` with no
fallback and no check. -/
def part004Proj (env : EnvVars) : Option String :=
  getEnv env "PROJECT_NAME"

/-- The VPC name part_004 declares: the template literal
`proj-VPC` built from the unchecked value; construction never aborts. -/
def part004VpcName (env : EnvVars) : String :=
  jsInterp (part004Proj env) ++ "-VPC"

/-- C7 counterexample: with PROJECT_NAME absent, part_004 neither fails
nor substitutes a declared default — it silently declares a VPC named
"undefined-VPC" (the JavaScript stringification of undefined, not a
declared fallback value such as the "ecs-boilerplate" used elsewhere). -/
theorem env_fallback_cex :
    getEnv [] "PROJECT_NAME" = none ∧
    part004VpcName [] = "undefined-VPC" ∧
    part004VpcName [] ≠ "ecs-boilerplate" ++ "-VPC" := by decide

/-- C7 amended: only some variants declare fallbacks, and none fails.
When a variable is absent, `setProjectInfo` substitutes the declared
hardcoded default for all three values; the part_003-second/part_005
reads default only the project name and silently carry an absent account
or region through unchecked; and part_004 has no fallback at all — an
absent PROJECT_NAME silently yields resource names interpolating
"undefined".  No variant fails at definition time. -/
theorem env_fallback (env : EnvVars) :
    (getEnv env "PROJECT_NAME" = none →
      (setProjectInfo env).proj = "ecs-boilerplate" ∧
      (part005ProjectInfo env).proj = "ecs-boilerplate") ∧
    (getEnv env "CDK_DEFAULT_ACCOUNT" = none →
      (setProjectInfo env).account = "123456789012" ∧
      (part005ProjectInfo env).account = none) ∧
    (getEnv env "CDK_DEFAULT_REGION" = none →
      (setProjectInfo env).region = "ap-southeast-1" ∧
      (part005ProjectInfo env).region = none) ∧
    (getEnv env "PROJECT_NAME" = none →
      part004VpcName env = "undefined-VPC") := by
  refine ⟨fun h => ?_, fun h => ?_, fun h => ?_, fun h => ?_⟩ <;>
    simp [setProjectInfo, part005ProjectInfo, envOrDefault,
      part004VpcName, part004Proj, jsInterp, h]

/-- Closed witness for `env_fallback` at the empty environment. -/
theorem env_fallback_witness :
    ((setProjectInfo []).proj = "ecs-boilerplate" ∧
      (part005ProjectInfo []).proj = "ecs-boilerplate") ∧
    (part005ProjectInfo []).account = none ∧
    (part005ProjectInfo []).region = none ∧
    part004VpcName [] = "undefined-VPC" :=
  ⟨(env_fallback []).1 rfl, ((env_fallback []).2.1 rfl).2,
   ((env_fallback []).2.2.1 rfl).2, (env_fallback []).2.2.2 rfl⟩

/-! ## Compute: container definition and service scaling -/

/-- A secret binding in a container definition: the environment name and
the parameter-store entry it is resolved from. -/
structure ContainerSecret where
  name : String
  parameterName : String
  deriving Repr, DecidableEq

/-- The `addContainer` properties the claims mention.  An omitted
`secrets` property is the empty list. -/
structure ContainerProps where
  id : String
  image : String
  memoryLimitMiB : Nat
  cpu : Nat
  portMappings : List Nat
  environment : List (String × String)
  secrets : List ContainerSecret
  deriving Repr, DecidableEq

/-- `taskDefinition.addContainer("Container", ...)` in lib/ecs.ts (first
ECSStack variant): image from the ECR repository, environment PORT=80,
no `secrets` property. -/
def ecsContainer : ContainerProps :=
  { id := "Container"
    image := "fromEcrRepository(ECR_ARN)"
    memoryLimitMiB := 512
    cpu := 256
    portMappings := [80]
    environment := [("PORT", "80")]
    secrets := [] }

/-- The second ECSStack variant's container (lib/ecs.ts, second half):
identical bindings, no logging block, no `secrets` property. -/
def ecsContainerAlt : ContainerProps :=
  { id := "Container"
    image := "fromEcrRepository(ECR_ARN)"
    memoryLimitMiB := 512
    cpu := 256
    portMappings := [80]
    environment := [("PORT", "80")]
    secrets := [] }

/-- part_004's inline container: image from the registry URI, same
bindings, no `secrets` property. -/
def part004Container : ContainerProps :=
  { id := "Container"
    image := "fromRegistry(ECR_URI)"
    memoryLimitMiB := 512
    cpu := 256
    portMappings := [80]
    environment := [("PORT", "80")]
    secrets := [] }

/-- All container definitions declared in the source. -/
def ecsContainerVariants : List ContainerProps :=
  [ecsContainer, ecsContainerAlt, part004Container]

/-- C8 counterexample: no container definition in the source declares any
secret binding — in particular none references a /proj/rds parameter;
the only binding is the plain environment variable PORT=80. -/
theorem container_secrets_cex :
    ecsContainer.secrets = [] ∧
    ecsContainerAlt.secrets = [] ∧
    part004Container.secrets = [] ∧
    ecsContainer.environment = [("PORT", "80")] := by decide

/-- C8 amended: every ECSStack container definition declares exactly the
environment binding PORT=80 and an empty secret-binding list; the
parameter-store entries written by the DatabaseStack are not referenced
by any container definition. -/
theorem container_bindings :
    ecsContainerVariants.map
        (fun c => (c.environment, c.secrets)) =
      [([("PORT", "80")], []), ([("PORT", "80")], []),
        ([("PORT", "80")], [])] := by decide

/-- The bounds passed to `service.autoScaleTaskCount`. -/
structure AutoScaleCapacity where
  minCapacity : Nat
  maxCapacity : Nat
  deriving Repr, DecidableEq

/-- One declared target-tracking scaling policy. -/
structure UtilizationScalingPolicy where
  id : String
  metric : String
  targetUtilizationPercent : Nat
  deriving Repr, DecidableEq

/-- `service.autoScaleTaskCount` bounds in lib/ecs.ts: min 1, max 4. -/
def autoScaleTaskCount : AutoScaleCapacity :=
  { minCapacity := 1, maxCapacity := 4 }

/-- The two scaling policies declared on the scalable target:
`scaleOnCpuUtilization("CpuScaling", 50)` and
`scaleOnMemoryUtilization("MemoryScaling", 70)` — two separate policy
declarations, not one combined condition. -/
def scalingPolicies : List UtilizationScalingPolicy :=
  [ ⟨"CpuScaling", "CPUUtilization", 50⟩,
    ⟨"MemoryScaling", "MemoryUtilization", 70⟩ ]

/-- C9: the scaling target keeps between 1 and 4 instances and declares
exactly two independent policies — CPU at 50% and memory at 70% — each a
separate trigger declaration, not one combined condition. -/
theorem service_scaling_policy :
    autoScaleTaskCount.minCapacity = 1 ∧
    autoScaleTaskCount.maxCapacity = 4 ∧
    scalingPolicies =
      [ ⟨"CpuScaling", "CPUUtilization", 50⟩,
        ⟨"MemoryScaling", "MemoryUtilization", 70⟩ ] := by decide
